import Mathlib

/-!
Verification of the node-sass-middleware recompilation core
(`middleware.js`): the dependency ledger (`imports`), the staleness
decision (`sass` middleware body, `checkImports`) and the compile /
respond path (`compile`, `done`), shallowly embedded as pure Lean
functions over an explicit filesystem and compiler oracle.
-/

/-- A filesystem error as node delivers it: only the `code` string is
inspected by the middleware (it compares against `"ENOENT"`). -/
structure IOErr where
  code : String
deriving DecidableEq, Repr

/-- A sass compile error: `done` reads `err.message`, `err.line` and
`err.column`. -/
structure SassError where
  message : String
  line : Nat
  column : Nat
deriving DecidableEq, Repr

/-- `result.stats` of a successful render: the middleware uses only
`includedFiles`. -/
structure RenderStats where
  includedFiles : List String
deriving DecidableEq, Repr

/-- A successful render result: `result.css` and `result.stats`. -/
structure RenderResult where
  css : String
  stats : RenderStats
deriving DecidableEq, Repr

/-- The filesystem as seen by one request: `fs.stat` yields a
modification time (mtime, as an abstract Nat clock) or an error, and
`fs.readFile` yields file contents or an error. -/
structure FS where
  stat : String → Except IOErr Nat
  readFile : String → Except IOErr String

/-- The compiler collaborator: `options.compile().render` on the source
text, returning a render result or a compile error. -/
abbrev Renderer := String → Except SassError RenderResult

/-- The process-wide `imports` object (the Dependency Ledger): maps a
source path to the `includedFiles` recorded at its last successful
compile, absent otherwise. -/
abbrev Imports := String → Option (List String)

/-- The empty ledger (`var imports = {}` at process start). -/
def emptyLedger : Imports := fun _ => none

/-- `delete imports[sassPath]`. -/
def ledgerClear (st : Imports) (k : String) : Imports :=
  fun p => if p = k then none else st p

/-- `imports[sassPath] = result.stats.includedFiles`. -/
def ledgerRecord (st : Imports) (k : String) (v : List String) : Imports :=
  fun p => if p = k then some v else st p

/-- Observable effects emitted while handling one request, in program
order.  `bgWrite` is the fire-and-forget `mkdirp` + `fs.writeFile` of the
compiled text; `log` is `console.error` logging; `next e` is
`next()` / `next(null)` / `next(err)`. -/
inductive Effect where
  | next (err : Option IOErr)
  | writeHead (status : Nat) (headers : List (String × String))
  | endBody (data : String)
  | bgWrite (path : String) (data : String)
  | log (msg : String)
deriving DecidableEq, Repr

/-- Discriminator: is this effect a `writeHead`? -/
def Effect.isWriteHead : Effect → Bool
  | .writeHead _ _ => true
  | _ => false

/-- Discriminator: is this effect a response body (`res.end`)? -/
def Effect.isEnd : Effect → Bool
  | .endBody _ => true
  | _ => false

/-- Discriminator: is this effect a background file write? -/
def Effect.isBgWrite : Effect → Bool
  | .bgWrite _ _ => true
  | _ => false

/-- Discriminator: is this effect a log line? -/
def Effect.isLog : Effect → Bool
  | .log _ => true
  | _ => false

/-- The `error` helper of the middleware: `next(null)` when the error is
ENOENT (fall through as 404), otherwise `next(err)`. -/
def errorAction (e : IOErr) : Effect :=
  Effect.next (if e.code = "ENOENT" then none else some e)

/-- The failure continuation the success path installs on its background
persist (`mkdirp(..., function(err){ if (err) return error(err); ... })`
and the inner `fs.writeFile` callback): both forward the failure to
`error`, i.e. to `next`. -/
def bgWriteOnError (e : IOErr) : Effect :=
  errorAction e

/-- The response head written by `done` in every case:
`res.writeHead(200, { 'Content-Type': 'text/css',
'Cache-Control': 'max-age=0' })`. -/
def stdHeaders : List (String × String) :=
  [("Content-Type", "text/css"), ("Cache-Control", "max-age=0")]

/-- `var fileLineColumn = sassPath + ':' + err.line + ':' + err.column`. -/
def fileLineColumn (sassPath : String) (err : SassError) : String :=
  sassPath ++ ":" ++ toString err.line ++ ":" ++ toString err.column

/-- `var message = err.message + ' in ' + fileLineColumn`. -/
def errMessage (sassPath : String) (err : SassError) : String :=
  err.message ++ " in " ++ fileLineColumn sassPath err

/-- The diagnostic CSS payload built by `done` on a compile error
(comment with the message, plus a `body:before` rule whose `content`
carries the message with newlines replaced by `\A `). -/
def errorData (sassPath : String) (err : SassError) : String :=
  "/*\n" ++ errMessage sassPath err ++
    "\n*/\nbody:before \x7b white-space: pre; font-family: monospace; content: \"" ++
    (errMessage sassPath err).replace "\n" "\\A " ++ "\""

/-- The `done` callback: on error, render the diagnostic payload; on
success, record the fresh `includedFiles` in the ledger and (unless in
response mode) schedule the background write of the css text; in both
cases write head 200 with the standard headers and end with the
in-memory data.  Returns the new ledger and the emitted effects in
program order. -/
def done (st : Imports) (sassPath cssPath : String) (response : Bool)
    (r : Except SassError RenderResult) : Imports × List Effect :=
  match r with
  | Except.error err =>
    (st, [Effect.writeHead 200 stdHeaders, Effect.endBody (errorData sassPath err)])
  | Except.ok result =>
    let st' := ledgerRecord st sassPath result.stats.includedFiles
    (st', (if response then [] else [Effect.bgWrite cssPath result.css]) ++
      [Effect.writeHead 200 stdHeaders, Effect.endBody result.css])

/-- The `compile` closure: read the source (`error` on failure, so a
missing source falls through as 404), then `delete imports[sassPath]`
and hand the render outcome to `done`. -/
def compileRun (st : Imports) (fs : FS) (renderer : Renderer)
    (sassPath cssPath : String) (response : Bool) : Imports × List Effect :=
  match fs.readFile sassPath with
  | Except.error e => (st, [errorAction e])
  | Except.ok str =>
    done (ledgerClear st sassPath) sassPath cssPath response (renderer str)

/-- One recorded import has changed relative to the output's mtime
`time`: `err || stat.mtime > time` in `checkImports`. -/
def importChanged (fs : FS) (time : Nat) (p : String) : Bool :=
  match fs.stat p with
  | Except.error _ => true
  | Except.ok m => time < m

/-- `checkImports(path, time, fn)`: the recorded imports whose stat
fails or whose mtime is strictly newer than `time`; an absent or empty
record yields the empty list (the caller then does not recompile). -/
def checkImports (st : Imports) (path : String) (time : Nat) (fs : FS) : List String :=
  match st path with
  | none => []
  | some nodes => nodes.filter (fun imported => importChanged fs time imported)

/-- What the decision part of the middleware chooses for one request:
take the `compile()` path, or hand off with `next` (carrying an error or
not). -/
inductive Decision where
  | compile
  | passNext (err : Option IOErr)
deriving DecidableEq, Repr

/-- The staleness decision of the middleware body for a css request,
exactly in source order: force (`options.force || options.response`)
compiles; an absent ledger entry compiles; then stat source (failure
goes through `error`), stat output (ENOENT compiles, other errors
`next(err)`), compare mtimes strictly, and finally consult
`checkImports` — a nonempty changed list compiles, else `next()`. -/
def sassDecision (st : Imports) (fs : FS) (sassPath cssPath : String)
    (forceOpt responseOpt : Bool) : Decision :=
  if forceOpt || responseOpt then Decision.compile
  else
    match st sassPath with
    | none => Decision.compile
    | some _ =>
      match fs.stat sassPath with
      | Except.error e =>
        Decision.passNext (if e.code = "ENOENT" then none else some e)
      | Except.ok sassMtime =>
        match fs.stat cssPath with
        | Except.error e =>
          if e.code = "ENOENT" then Decision.compile else Decision.passNext (some e)
        | Except.ok cssMtime =>
          if cssMtime < sassMtime then Decision.compile
          else if (checkImports st sassPath cssMtime fs).isEmpty then
            Decision.passNext none
          else Decision.compile

/-- The middleware body for one matching GET/HEAD css request: decide,
then either run `compile()` or emit the chosen `next` call.  Returns the
ledger after the request and the effects in program order. -/
def sass (st : Imports) (fs : FS) (renderer : Renderer)
    (sassPath cssPath : String) (forceOpt responseOpt : Bool) : Imports × List Effect :=
  match sassDecision st fs sassPath cssPath forceOpt responseOpt with
  | Decision.compile => compileRun st fs renderer sassPath cssPath responseOpt
  | Decision.passNext e => (st, [Effect.next e])

/-! Concrete fixtures used by witnesses and counterexamples: source
`a.scss` (mtime 5), output `a.css` (mtime 10), one recorded import
`i.scss`. -/

/-- Filesystem for a cache hit: the import `i.scss` (mtime 7) is older
than the output (mtime 10). -/
def fsHit : FS where
  stat := fun p =>
    if p = "a.scss" then Except.ok 5
    else if p = "a.css" then Except.ok 10
    else if p = "i.scss" then Except.ok 7
    else Except.error ⟨"ENOENT"⟩
  readFile := fun p =>
    if p = "a.scss" then Except.ok "body-src"
    else if p = "a.css" then Except.ok "cached-css"
    else Except.error ⟨"ENOENT"⟩

/-- Filesystem where the import `i.scss` (mtime 20) is strictly newer
than the output (mtime 10) while the source itself is unchanged. -/
def fsStale : FS where
  stat := fun p =>
    if p = "a.scss" then Except.ok 5
    else if p = "a.css" then Except.ok 10
    else if p = "i.scss" then Except.ok 20
    else Except.error ⟨"ENOENT"⟩
  readFile := fun p =>
    if p = "a.scss" then Except.ok "body-src"
    else if p = "a.css" then Except.ok "cached-css"
    else Except.error ⟨"ENOENT"⟩

/-- Ledger with `a.scss` recorded as importing `i.scss`. -/
def stHit : Imports := ledgerRecord emptyLedger "a.scss" ["i.scss"]

/-- A compiler that succeeds, returning css text derived from the input
and the included-files list `["i.scss"]`. -/
def okRenderer : Renderer := fun str =>
  Except.ok ⟨"compiled:" ++ str, ⟨["i.scss"]⟩⟩

/-- A compiler that rejects its input with a located error. -/
def errRenderer : Renderer := fun _ =>
  Except.error ⟨"Invalid CSS after", 2, 3⟩

/-- C1: with a ledger entry and a source not strictly newer than the
output, the middleware compiles exactly when some recorded import has a
failing stat or an mtime strictly newer than the output's; when every
recorded import stats cleanly and none is newer, it does not compile. -/
theorem c1_import_invalidation (st : Imports) (fs : FS) (sassPath cssPath : String)
    (nodes : List String) (sassMtime cssMtime : Nat)
    (hL : st sassPath = some nodes)
    (hs : fs.stat sassPath = Except.ok sassMtime)
    (hc : fs.stat cssPath = Except.ok cssMtime)
    (hm : ¬ cssMtime < sassMtime) :
    (sassDecision st fs sassPath cssPath false false = Decision.compile ↔
      ∃ i ∈ nodes, importChanged fs cssMtime i = true) ∧
    ((∀ i ∈ nodes, importChanged fs cssMtime i = false) →
      sassDecision st fs sassPath cssPath false false = Decision.passNext none) := by
  have hck : checkImports st sassPath cssMtime fs =
      nodes.filter (fun i => importChanged fs cssMtime i) := by
    simp [checkImports, hL]
  have hd : sassDecision st fs sassPath cssPath false false =
      if (nodes.filter (fun i => importChanged fs cssMtime i)).isEmpty then
        Decision.passNext none
      else Decision.compile := by
    simp [sassDecision, hL, hs, hc, hm, hck]
  constructor
  · rw [hd]
    by_cases h : (nodes.filter (fun i => importChanged fs cssMtime i)) = []
    · have hall := List.filter_eq_nil_iff.mp h
      rw [h]
      refine iff_of_false (by simp) ?_
      rintro ⟨i, hi, hch⟩
      exact absurd hch (by simpa using hall i hi)
    · have hne : (nodes.filter (fun i => importChanged fs cssMtime i)).isEmpty = false := by
        simpa [List.isEmpty_iff] using h
      rw [hne]
      refine iff_of_true (by simp) ?_
      obtain ⟨i, hi⟩ := List.exists_mem_of_ne_nil _ h
      exact ⟨i, (List.mem_filter.mp hi).1, (List.mem_filter.mp hi).2⟩
  · intro hall
    rw [hd]
    have hnil : nodes.filter (fun i => importChanged fs cssMtime i) = [] :=
      List.filter_eq_nil_iff.mpr (fun a ha => by simp [hall a ha])
    simp [hnil]

/-- C1 witness: with `i.scss` (mtime 20) newer than `a.css` (mtime 10),
the import-invalidation characterisation holds at a concrete state. -/
theorem c1_import_invalidation_witness :
    (sassDecision stHit fsStale "a.scss" "a.css" false false = Decision.compile ↔
      ∃ i ∈ ["i.scss"], importChanged fsStale 10 i = true) ∧
    ((∀ i ∈ ["i.scss"], importChanged fsStale 10 i = false) →
      sassDecision stHit fsStale "a.scss" "a.css" false false = Decision.passNext none) :=
  c1_import_invalidation stHit fsStale "a.scss" "a.css" ["i.scss"] 5 10
    (by decide) rfl rfl (by decide)

/-- C2: with a ledger entry and both stats succeeding, the
source-vs-output comparison is strict: a strictly newer source compiles,
while equal mtimes do not compile from this check (the decision then
depends only on the recorded imports). -/
theorem c2_strict_mtime (st : Imports) (fs : FS) (sassPath cssPath : String)
    (nodes : List String) (sassMtime cssMtime : Nat)
    (hL : st sassPath = some nodes)
    (hs : fs.stat sassPath = Except.ok sassMtime)
    (hc : fs.stat cssPath = Except.ok cssMtime) :
    (cssMtime < sassMtime →
      sassDecision st fs sassPath cssPath false false = Decision.compile) ∧
    (sassMtime = cssMtime →
      sassDecision st fs sassPath cssPath false false =
        (if (nodes.filter (fun i => importChanged fs cssMtime i)).isEmpty then
          Decision.passNext none
        else Decision.compile)) := by
  have hck : checkImports st sassPath cssMtime fs =
      nodes.filter (fun i => importChanged fs cssMtime i) := by
    simp [checkImports, hL]
  constructor
  · intro hlt
    simp [sassDecision, hL, hs, hc, hlt]
  · intro heq
    subst heq
    simp [sassDecision, hL, hs, hc, hck]

/-- Filesystem where source and output have equal mtimes (both 10) and
the import `i.scss` (mtime 7) is older than the output. -/
def fsEqual : FS where
  stat := fun p =>
    if p = "a.scss" then Except.ok 10
    else if p = "a.css" then Except.ok 10
    else if p = "i.scss" then Except.ok 7
    else Except.error ⟨"ENOENT"⟩
  readFile := fun p =>
    if p = "a.scss" then Except.ok "body-src"
    else Except.error ⟨"ENOENT"⟩

/-- C2 witness: at equal mtimes (source 10, output 10) with the
old import `i.scss` (mtime 7), the decision is `next()` — not stale. -/
theorem c2_strict_mtime_witness :
    (10 < 10 →
      sassDecision stHit fsEqual "a.scss" "a.css" false false = Decision.compile) ∧
    (10 = 10 →
      sassDecision stHit fsEqual "a.scss" "a.css" false false =
        (if ((["i.scss"]).filter (fun i => importChanged fsEqual 10 i)).isEmpty then
          Decision.passNext none
        else Decision.compile)) :=
  c2_strict_mtime stHit fsEqual "a.scss" "a.css" ["i.scss"] 10 10
    (by decide) rfl rfl

/-- C3: a source with no ledger entry always takes the compile path, for
every filesystem (hence regardless of any mtimes on disk) and every
force/response setting. -/
theorem c3_no_entry_recompiles (st : Imports) (fs : FS) (sassPath cssPath : String)
    (forceOpt responseOpt : Bool) (hL : st sassPath = none) :
    sassDecision st fs sassPath cssPath forceOpt responseOpt = Decision.compile := by
  unfold sassDecision
  rw [hL]
  split <;> rfl

/-- C3 witness: at process start (`emptyLedger`), even with an output
file newer than the source on disk, the decision is compile. -/
theorem c3_no_entry_recompiles_witness :
    sassDecision emptyLedger fsHit "a.scss" "a.css" false false = Decision.compile :=
  c3_no_entry_recompiles emptyLedger fsHit "a.scss" "a.css" false false (by decide)

/-- C4 counterexample: on a cache hit (`fsHit`, entry present, output
fresh, import older) the middleware does not read `a.css` and return its
contents (`"cached-css"`) as the response body — it emits exactly one
`next()` call and no response body at all, delegating the serving to the
downstream static handler. -/
theorem c4_counterexample :
    fsHit.readFile "a.css" = Except.ok "cached-css" ∧
    (sass stHit fsHit okRenderer "a.scss" "a.css" false false).2 = [Effect.next none] ∧
    Effect.endBody "cached-css" ∉ (sass stHit fsHit okRenderer "a.scss" "a.css" false false).2 := by
  refine ⟨rfl, rfl, ?_⟩
  intro h
  rw [show (sass stHit fsHit okRenderer "a.scss" "a.css" false false).2 =
    [Effect.next none] from rfl] at h
  simp at h

/-- C4 (amended): on a cache hit — force and response unset, ledger
entry present, source not strictly newer than output, no recorded import
changed — the middleware leaves the ledger untouched and emits exactly
`next()`, handing the serving of the cached output to the next
middleware instead of reading the file itself. -/
theorem c4_cache_hit_passes_through (st : Imports) (fs : FS) (renderer : Renderer)
    (sassPath cssPath : String) (nodes : List String) (sassMtime cssMtime : Nat)
    (hL : st sassPath = some nodes)
    (hs : fs.stat sassPath = Except.ok sassMtime)
    (hc : fs.stat cssPath = Except.ok cssMtime)
    (hm : ¬ cssMtime < sassMtime)
    (hall : ∀ i ∈ nodes, importChanged fs cssMtime i = false) :
    sass st fs renderer sassPath cssPath false false = (st, [Effect.next none]) := by
  have hck : checkImports st sassPath cssMtime fs =
      nodes.filter (fun i => importChanged fs cssMtime i) := by
    simp [checkImports, hL]
  have hnil : nodes.filter (fun i => importChanged fs cssMtime i) = [] :=
    List.filter_eq_nil_iff.mpr (fun a ha => by simp [hall a ha])
  have hd : sassDecision st fs sassPath cssPath false false = Decision.passNext none := by
    simp [sassDecision, hL, hs, hc, hm, hck, hnil]
  simp [sass, hd]

/-- C4 (amended) witness: concrete cache hit emits exactly `next()`. -/
theorem c4_cache_hit_passes_through_witness :
    sass stHit fsHit okRenderer "a.scss" "a.css" false false = (stHit, [Effect.next none]) :=
  c4_cache_hit_passes_through stHit fsHit okRenderer "a.scss" "a.css" ["i.scss"] 5 10
    (by decide) rfl rfl (by decide) (by decide)

/-- C5: a recompile that reaches the compiler first clears the ledger
entry, and on success records exactly the compiler's fresh
`includedFiles` (never merged with the old set); consequently a later
request decides from the new set alone — if the source is not newer and
no file of the new set changed, no recompile happens, whatever the
mtimes of formerly imported files are. -/
theorem c5_fresh_import_set (st : Imports) (fs fs2 : FS) (renderer : Renderer)
    (sassPath cssPath : String) (response : Bool) (str : String)
    (result : RenderResult) (sassMtime cssMtime : Nat)
    (hread : fs.readFile sassPath = Except.ok str)
    (hok : renderer str = Except.ok result) :
    (compileRun st fs renderer sassPath cssPath response).1 sassPath =
      some result.stats.includedFiles ∧
    (fs2.stat sassPath = Except.ok sassMtime →
     fs2.stat cssPath = Except.ok cssMtime →
     ¬ cssMtime < sassMtime →
     (∀ i ∈ result.stats.includedFiles, importChanged fs2 cssMtime i = false) →
     sassDecision (compileRun st fs renderer sassPath cssPath response).1 fs2
       sassPath cssPath false false = Decision.passNext none) := by
  have hL' : (compileRun st fs renderer sassPath cssPath response).1 sassPath =
      some result.stats.includedFiles := by
    simp [compileRun, hread, hok, done, ledgerRecord]
  refine ⟨hL', ?_⟩
  intro hs2 hc2 hm2 hall
  have hck : checkImports (compileRun st fs renderer sassPath cssPath response).1
      sassPath cssMtime fs2 =
      result.stats.includedFiles.filter (fun i => importChanged fs2 cssMtime i) := by
    simp [checkImports, hL']
  have hnil : result.stats.includedFiles.filter (fun i => importChanged fs2 cssMtime i) = [] :=
    List.filter_eq_nil_iff.mpr (fun a ha => by simp [hall a ha])
  simp [sassDecision, hL', hs2, hc2, hm2, hck, hnil]

/-- C5 witness: after a successful compile the entry is exactly
`["i.scss"]`, and a later request against `fsHit` (import unchanged)
decides `next()`. -/
theorem c5_fresh_import_set_witness :
    (compileRun emptyLedger fsHit okRenderer "a.scss" "a.css" false).1 "a.scss" =
      some ["i.scss"] ∧
    (fsHit.stat "a.scss" = Except.ok 5 →
     fsHit.stat "a.css" = Except.ok 10 →
     ¬ (10 : Nat) < 5 →
     (∀ i ∈ ["i.scss"], importChanged fsHit 10 i = false) →
     sassDecision (compileRun emptyLedger fsHit okRenderer "a.scss" "a.css" false).1 fsHit
       "a.scss" "a.css" false false = Decision.passNext none) :=
  c5_fresh_import_set emptyLedger fsHit fsHit okRenderer "a.scss" "a.css" false
    "body-src" ⟨"compiled:body-src", ⟨["i.scss"]⟩⟩ 5 10 rfl rfl

/-- C6: a compile attempt whose render fails leaves no ledger entry for
the source (the clear performed before rendering stays in effect) and
schedules no write at all to the output path, so a pre-existing output
file is untouched. -/
theorem c6_failed_compile (st : Imports) (fs : FS) (renderer : Renderer)
    (sassPath cssPath : String) (response : Bool) (str : String) (e : SassError)
    (hread : fs.readFile sassPath = Except.ok str)
    (herr : renderer str = Except.error e) :
    (compileRun st fs renderer sassPath cssPath response).1 sassPath = none ∧
    (compileRun st fs renderer sassPath cssPath response).2.filter Effect.isBgWrite = [] := by
  simp [compileRun, hread, herr, done, ledgerClear, Effect.isBgWrite]

/-- C6 witness: a failing render against a ledger that previously had an
entry for `a.scss` clears the entry and schedules no output write. -/
theorem c6_failed_compile_witness :
    (compileRun stHit fsHit errRenderer "a.scss" "a.css" false).1 "a.scss" = none ∧
    (compileRun stHit fsHit errRenderer "a.scss" "a.css" false).2.filter Effect.isBgWrite = [] :=
  c6_failed_compile stHit fsHit errRenderer "a.scss" "a.css" false "body-src"
    ⟨"Invalid CSS after", 2, 3⟩ rfl rfl

/-- String append concatenates the underlying character lists. -/
theorem stringData_append (s t : String) : (s ++ t).data = s.data ++ t.data :=
  rfl

/-- C7: a failing compile answers the request with head 200 (the
standard css headers) and a diagnostic body that embeds the compiler's
error message and the `source:line:column` location reference. -/
theorem c7_error_diagnostic (st : Imports) (fs : FS) (renderer : Renderer)
    (sassPath cssPath : String) (response : Bool) (str : String) (e : SassError)
    (hread : fs.readFile sassPath = Except.ok str)
    (herr : renderer str = Except.error e) :
    (compileRun st fs renderer sassPath cssPath response).2 =
      [Effect.writeHead 200 stdHeaders, Effect.endBody (errorData sassPath e)] ∧
    e.message.data <:+: (errorData sassPath e).data ∧
    (fileLineColumn sassPath e).data <:+: (errorData sassPath e).data := by
  refine ⟨by simp [compileRun, hread, herr, done], ?_, ?_⟩
  · refine ⟨("/*\n").data,
      ((" in " ++ fileLineColumn sassPath e) ++
        ("\n*/\nbody:before \x7b white-space: pre; font-family: monospace; content: \"" ++
          (errMessage sassPath e).replace "\n" "\\A " ++ "\"")).data, ?_⟩
    simp [errorData, errMessage, stringData_append, List.append_assoc]
  · refine ⟨("/*\n" ++ e.message ++ " in ").data,
      ("\n*/\nbody:before \x7b white-space: pre; font-family: monospace; content: \"" ++
        (errMessage sassPath e).replace "\n" "\\A " ++ "\"").data, ?_⟩
    simp [errorData, errMessage, stringData_append, List.append_assoc]

/-- C7 witness: the concrete failing compile responds 200 with the
diagnostic payload containing the message and `a.scss:2:3`. -/
theorem c7_error_diagnostic_witness :
    (compileRun stHit fsHit errRenderer "a.scss" "a.css" false).2 =
      [Effect.writeHead 200 stdHeaders,
       Effect.endBody (errorData "a.scss" ⟨"Invalid CSS after", 2, 3⟩)] ∧
    ("Invalid CSS after").data <:+: (errorData "a.scss" ⟨"Invalid CSS after", 2, 3⟩).data ∧
    (fileLineColumn "a.scss" ⟨"Invalid CSS after", 2, 3⟩).data <:+:
      (errorData "a.scss" ⟨"Invalid CSS after", 2, 3⟩).data :=
  c7_error_diagnostic stHit fsHit errRenderer "a.scss" "a.css" false "body-src"
    ⟨"Invalid CSS after", 2, 3⟩ rfl rfl

/-- C10: every response the middleware sends itself (any compile run
that reaches `done`, whether forced, cache-miss or a compile error)
writes exactly one head — status 200 with Content-Type text/css and
Cache-Control max-age=0 — and ends exactly one body, so success and
error responses are indistinguishable by status and headers. -/
theorem c10_uniform_headers (st : Imports) (fs : FS) (renderer : Renderer)
    (sassPath cssPath : String) (response : Bool) (str : String)
    (hread : fs.readFile sassPath = Except.ok str) :
    (compileRun st fs renderer sassPath cssPath response).2.filter Effect.isWriteHead =
      [Effect.writeHead 200 stdHeaders] ∧
    ((compileRun st fs renderer sassPath cssPath response).2.filter Effect.isEnd).length = 1 := by
  cases hr : renderer str <;>
    cases response <;>
      simp [compileRun, hread, hr, done, Effect.isWriteHead, Effect.isEnd]

/-- C10 witness: the concrete successful compile writes exactly the
standard 200 head and one body. -/
theorem c10_uniform_headers_witness :
    (compileRun emptyLedger fsHit okRenderer "a.scss" "a.css" false).2.filter
      Effect.isWriteHead = [Effect.writeHead 200 stdHeaders] ∧
    ((compileRun emptyLedger fsHit okRenderer "a.scss" "a.css" false).2.filter
      Effect.isEnd).length = 1 :=
  c10_uniform_headers emptyLedger fsHit okRenderer "a.scss" "a.css" false "body-src" rfl

/-- One middleware request, as an event in the process lifetime: the
filesystem and compiler as they behave at that moment, the derived
paths, and the force/response options. -/
structure Request where
  fs : FS
  renderer : Renderer
  sassPath : String
  cssPath : String
  force : Bool
  response : Bool

/-- The ledger after handling one request. -/
def stepState (st : Imports) (q : Request) : Imports :=
  (sass st q.fs q.renderer q.sassPath q.cssPath q.force q.response).1

/-- The ledger after a sequence of requests starting from `st`. -/
def runState (st : Imports) (qs : List Request) : Imports :=
  qs.foldl stepState st

/-- The request reached the compiler for its source: the decision was
compile and the source read succeeded (so `delete imports[sassPath]` and
`style.render` ran). -/
def reachedCompiler (st : Imports) (q : Request) : Bool :=
  match sassDecision st q.fs q.sassPath q.cssPath q.force q.response with
  | Decision.passNext _ => false
  | Decision.compile =>
    match q.fs.readFile q.sassPath with
    | Except.error _ => false
    | Except.ok _ => true

/-- The request compiled its source successfully. -/
def compileSucceeded (st : Imports) (q : Request) : Bool :=
  match sassDecision st q.fs q.sassPath q.cssPath q.force q.response with
  | Decision.passNext _ => false
  | Decision.compile =>
    match q.fs.readFile q.sassPath with
    | Except.error _ => false
    | Except.ok str =>
      match q.renderer str with
      | Except.error _ => false
      | Except.ok _ => true

/-- Some request in the sequence successfully compiled source `s`. -/
def ranSuccess (s : String) : Imports → List Request → Bool
  | _, [] => false
  | st, q :: qs =>
    ((q.sassPath == s) && compileSucceeded st q) || ranSuccess s (stepState st q) qs

/-- A request that compiles `a.scss` successfully. -/
def reqOk : Request := ⟨fsHit, okRenderer, "a.scss", "a.css", false, false⟩

/-- A forced request whose compile of `a.scss` fails. -/
def reqFail : Request := ⟨fsHit, errRenderer, "a.scss", "a.css", true, false⟩

/-- C8 counterexample: after a successful compile of `a.scss` followed
by a failed forced recompile, the source has been successfully compiled
at least once since process start, yet the ledger has no entry — entry
existence is not equivalent to "successfully compiled at least once" and
is affected by later failed compile attempts. -/
theorem c8_counterexample :
    ranSuccess "a.scss" emptyLedger [reqOk, reqFail] = true ∧
    runState emptyLedger [reqOk, reqFail] "a.scss" = none := by
  constructor
  · rfl
  · rfl

/-- C8 (amended): after any request, an entry for a source exists iff
that request successfully compiled it, or the entry already existed and
the request did not reach the compiler for it (entries of other sources
are untouched).  In particular a failed recompile attempt erases a
previously existing entry. -/
theorem c8_entry_characterisation (st : Imports) (q : Request) (s : String) :
    ((stepState st q) s).isSome =
      (if s = q.sassPath then
        compileSucceeded st q || (!reachedCompiler st q && (st s).isSome)
      else (st s).isSome) := by
  unfold stepState sass compileSucceeded reachedCompiler
  cases hd : sassDecision st q.fs q.sassPath q.cssPath q.force q.response with
  | passNext e =>
    by_cases hsq : s = q.sassPath <;> simp [hsq]
  | compile =>
    cases hr : q.fs.readFile q.sassPath with
    | error e =>
      simp only [compileRun, hr]
      by_cases hsq : s = q.sassPath <;> simp [hsq]
    | ok str =>
      cases hrr : q.renderer str with
      | error err =>
        simp only [compileRun, hr, hrr, done]
        by_cases hsq : s = q.sassPath <;> simp [ledgerClear, hsq]
      | ok result =>
        simp only [compileRun, hr, hrr, done]
        by_cases hsq : s = q.sassPath <;> simp [ledgerRecord, ledgerClear, hsq]

/-- C9 counterexample: the failure continuation the success path
installs on its background persist is not a log: for a concrete
`EACCES` failure it forwards the error to the next middleware
(`next(err)`), exactly as the `error` helper does. -/
theorem c9_counterexample :
    bgWriteOnError ⟨"EACCES"⟩ = Effect.next (some ⟨"EACCES"⟩) ∧
    (bgWriteOnError ⟨"EACCES"⟩).isLog = false := by
  constructor
  · rfl
  · rfl

/-- C9 (amended): after a successful compile not in direct-response
mode, the background write of the in-memory css is scheduled and the
response head and body are emitted immediately from that same in-memory
text (so nothing in the response depends on the write's fate); a failure
of the directory creation or file write is forwarded to the next
middleware — `next(err)`, or `next(null)` for ENOENT — after the
response has already been ended, rather than being merely logged. -/
theorem c9_fire_and_forget (st : Imports) (fs : FS) (renderer : Renderer)
    (sassPath cssPath : String) (str : String) (result : RenderResult) (e : IOErr)
    (hread : fs.readFile sassPath = Except.ok str)
    (hok : renderer str = Except.ok result) :
    (compileRun st fs renderer sassPath cssPath false).2 =
      [Effect.bgWrite cssPath result.css,
       Effect.writeHead 200 stdHeaders, Effect.endBody result.css] ∧
    bgWriteOnError e = Effect.next (if e.code = "ENOENT" then none else some e) := by
  refine ⟨by simp [compileRun, hread, hok, done], rfl⟩

/-- C9 (amended) witness: the concrete successful compile schedules the
write and responds from memory; a concrete ENOENT write failure maps to
`next(null)`. -/
theorem c9_fire_and_forget_witness :
    (compileRun emptyLedger fsHit okRenderer "a.scss" "a.css" false).2 =
      [Effect.bgWrite "a.css" "compiled:body-src",
       Effect.writeHead 200 stdHeaders, Effect.endBody "compiled:body-src"] ∧
    bgWriteOnError ⟨"ENOENT"⟩ =
      Effect.next (if ("ENOENT" : String) = "ENOENT" then none else some ⟨"ENOENT"⟩) :=
  c9_fire_and_forget emptyLedger fsHit okRenderer "a.scss" "a.css" "body-src"
    ⟨"compiled:body-src", ⟨["i.scss"]⟩⟩ ⟨"ENOENT"⟩ rfl rfl
